import Mathlib

/- Shallow embedding of the human-in-the-loop (HITL) interrupt-and-resume
protocol of the chat client, taken from the useChat hook
(src/app/hooks/useChat.ts): the data model (src/app/types/types.ts), the
detector tick (checkInterrupts, source lines 318-418), the resume
coordinator (resumeRun, source lines 433-504), the conversation-change
reset effect (source lines 141-145) and the disabled/no-context reset
(source lines 310-313).

Conventions of the embedding:
- TypeScript optional fields (undefined/null) become Option; the JS
  truthiness test of an optional object or string field is read as
  Option.isSome (string values such as interrupt ids are assumed nonempty,
  as the backend issues them).
- The JS Set of handled interrupt ids (handledInterruptIdsRef) is a
  Finset String; the displayed record (interruptState) and the last-seen
  marker (lastInterruptIdRef) are the other two mutable cells.
- A detector tick returns the successor state together with the list of
  setInterruptState calls it performed, its publish events: some r
  publishes a record, none clears the display.
- The only suspension point of a tick is the fallback query, so the
  cancellation flag is a parameter both of the synchronous live-probe part
  and of the fallback-resolution continuation; the flag can only have been
  raised at the suspension point. -/

/-- Opaque stand-in for a JS state-snapshot value: either the empty-object
default used on the live path or opaque data. -/
inductive Snapshot where
  | emptyObj : Snapshot
  | data : String → Snapshot
deriving DecidableEq

/-- One entry of pendingAction.action_requests: a tool name plus an opaque
arguments payload. -/
structure ActionRequest where
  name : String
  args : String
deriving DecidableEq

/-- The fields of an interrupt payload the code reads after normalization:
action_requests and a top-level name, each possibly absent. -/
structure InterruptValue where
  action_requests : Option (List ActionRequest)
  name : Option String
deriving DecidableEq

/-- A raw interrupt object as delivered by stream.interrupt or by the
thread-state query: an optional id, an optional value wrapper, and
possibly the value-shape fields directly on the object (the code falls
back to the object itself when value is absent). -/
structure Interrupt where
  id : Option String
  value : Option InterruptValue
  action_requests : Option (List ActionRequest)
  name : Option String
deriving DecidableEq

/-- InterruptState from types.ts: the canonical displayed record. -/
structure InterruptState where
  runId : String
  threadId : String
  nodeName : String
  pendingAction : Option InterruptValue
  state : Snapshot
  interruptId : Option String
deriving DecidableEq

/-- The three mutable cells of the useChat HITL subsystem: the displayed
record (interruptState), the handled-interrupt ledger
(handledInterruptIdsRef) and the last-seen interrupt id marker
(lastInterruptIdRef). -/
structure HITLState where
  interruptState : Option InterruptState
  handledInterruptIds : Finset String
  lastInterruptId : Option String
deriving DecidableEq

/-- One task entry of the queried thread state (tasks[i].interrupts). -/
structure TaskState where
  interrupts : Option (List Interrupt)
deriving DecidableEq

/-- The thread state returned by client.threads.getState: top-level
interrupts, per-task interrupts, and the values snapshot. -/
structure ThreadState where
  interrupts : Option (List Interrupt)
  tasks : Option (List TaskState)
  values : Option Snapshot
deriving DecidableEq

def unknownStr : String := "unknown"

/-- Source line 325 / 387: interrupt?.value || interrupt. When the value
wrapper is absent the code uses the interrupt object itself; the embedding
keeps exactly the fields the code subsequently reads from it. -/
def interruptEffectiveValue (i : Interrupt) : InterruptValue :=
  match i.value with
  | some v => v
  | none => { action_requests := i.action_requests, name := i.name }

/-- Source lines 342-345 / 388-391:
interruptValue?.action_requests?.[0]?.name || interruptValue?.name ||
"unknown". -/
def normalizeNodeName (v : InterruptValue) : String :=
  match v.action_requests with
  | some (a :: _) => a.name
  | _ => v.name.getD unknownStr

/-- JS strict equality between the normalized id (string | undefined) and
the marker (string | null): two equal strings compare equal, and
undefined === null is false, so two absent ids never compare equal. -/
def optStrEq : Option String → Option String → Bool
  | some a, some b => a == b
  | _, _ => false

/-- setInterruptState(null); lastInterruptIdRef.current = null. -/
def clearDisplay (s : HITLState) : HITLState :=
  { s with interruptState := none, lastInterruptId := none }

/-- The canonical record built on the live path (source lines 349-356):
runId from stream or unknown, the normalized node name, the effective
value as pendingAction, the stream values or the empty-object default,
and the normalized id. -/
def liveRecord (threadId : String) (intr : Interrupt)
    (streamRunId : Option String) (streamValues : Option Snapshot) :
    InterruptState :=
  { runId := streamRunId.getD unknownStr
    threadId := threadId
    nodeName := normalizeNodeName (interruptEffectiveValue intr)
    pendingAction := some (interruptEffectiveValue intr)
    state := streamValues.getD Snapshot.emptyObj
    interruptId := intr.id }

/-- Source lines 337-358, the tail of the live-probe branch: change
suppression against the marker, then (unless cancelled) marker update and
publication of the canonical record. -/
def livePublish (s : HITLState) (threadId : String) (c : Bool)
    (intr : Interrupt) (streamRunId : Option String)
    (streamValues : Option Snapshot) :
    HITLState × List (Option InterruptState) :=
  if optStrEq intr.id s.lastInterruptId then (s, [])
  else if c then (s, [])
  else
    let r := liveRecord threadId intr streamRunId streamValues
    ({ s with interruptState := some r, lastInterruptId := intr.id },
     [some r])

/-- Source lines 324-359: the live-probe branch of checkInterrupts. If the
normalized id is present and in the ledger, the tick reports no active
interrupt (clearing the display only when the marker is non-null);
otherwise it proceeds to change suppression and publication. -/
def liveTick (s : HITLState) (threadId : String) (c : Bool)
    (intr : Interrupt) (streamRunId : Option String)
    (streamValues : Option Snapshot) :
    HITLState × List (Option InterruptState) :=
  match intr.id with
  | some i =>
    if i ∈ s.handledInterruptIds then
      if c = false ∧ s.lastInterruptId ≠ none then (clearDisplay s, [none])
      else (s, [])
    else livePublish s threadId c intr streamRunId streamValues
  | none => livePublish s threadId c intr streamRunId streamValues

/-- Source lines 366-368: stateAny?.interrupts || [] concatenated with
stateAny?.tasks?.flatMap(task => task?.interrupts || []) || []. -/
def allInterruptsOf (st : ThreadState) : List Interrupt :=
  (st.interrupts.getD []) ++
    (st.tasks.getD []).flatMap (fun t => t.interrupts.getD [])

/-- The canonical record built on the fallback path (source lines
394-402): runId unknown, the normalized node name, the effective value,
the queried values snapshot, and the normalized id. -/
def fallbackRecord (threadId : String) (intr : Interrupt) (vals : Snapshot) :
    InterruptState :=
  { runId := unknownStr
    threadId := threadId
    nodeName := normalizeNodeName (interruptEffectiveValue intr)
    pendingAction := some (interruptEffectiveValue intr)
    state := vals
    interruptId := intr.id }

/-- Source lines 382-403, the tail of the fallback branch after the head
candidate was taken: change suppression, then publication. -/
def fallbackPublish (s : HITLState) (threadId : String) (c : Bool)
    (intr : Interrupt) (vals : Snapshot) :
    HITLState × List (Option InterruptState) :=
  if optStrEq intr.id s.lastInterruptId then (s, [])
  else if c then (s, [])
  else
    let r := fallbackRecord threadId intr vals
    ({ s with interruptState := some r, lastInterruptId := intr.id },
     [some r])

/-- Source lines 371-403: ledger deduplication of the fallback head
candidate, then publication. -/
def fallbackProcess (s : HITLState) (threadId : String) (c : Bool)
    (intr : Interrupt) (vals : Snapshot) :
    HITLState × List (Option InterruptState) :=
  match intr.id with
  | some i =>
    if i ∈ s.handledInterruptIds then
      if c = false ∧ s.lastInterruptId ≠ none then (clearDisplay s, [none])
      else (s, [])
    else fallbackPublish s threadId c intr vals
  | none => fallbackPublish s threadId c intr vals

/-- Source lines 362-417: the fallback-resolution continuation of a tick,
given the result of the awaited thread-state query and the cancellation
flag at resolution time. An error takes the catch path (lines 411-417);
a non-empty candidate list is processed only when not cancelled and the
values snapshot is truthy; otherwise the tick takes the no-interrupt path
and clears the display only when the marker is non-null. -/
def fallbackTick (s : HITLState) (threadId : String) (c : Bool)
    (result : Except Unit ThreadState) :
    HITLState × List (Option InterruptState) :=
  match result with
  | .error _ =>
    if c = false ∧ s.lastInterruptId ≠ none then (clearDisplay s, [none])
    else (s, [])
  | .ok st =>
    match allInterruptsOf st, st.values with
    | intr :: _, some vals =>
      if c then (s, [])
      else fallbackProcess s threadId c intr vals
    | _, _ =>
      if c = false ∧ s.lastInterruptId ≠ none then (clearDisplay s, [none])
      else (s, [])

/-- The per-tick inputs: the live probe (stream.interrupt, stream.runId,
stream.values), the cancellation flag as read in the synchronous live
part, and the fallback query result with the flag at its resolution. -/
structure TickInput where
  streamInterrupt : Option Interrupt
  streamRunId : Option String
  streamValues : Option Snapshot
  liveCancelled : Bool
  fallbackCancelled : Bool
  fallbackResult : Except Unit ThreadState

/-- Source lines 318-418: one detector tick. The live probe, when truthy,
is used and the fallback query is ignored for that tick; otherwise the
fallback continuation runs. -/
def checkInterrupts (s : HITLState) (threadId : String) (inp : TickInput) :
    HITLState × List (Option InterruptState) :=
  match inp.streamInterrupt with
  | some intr =>
    liveTick s threadId inp.liveCancelled intr inp.streamRunId
      inp.streamValues
  | none => fallbackTick s threadId inp.fallbackCancelled inp.fallbackResult

/-- A sequence of detector ticks, accumulating publish events. -/
def runTicks (s : HITLState) (threadId : String) :
    List TickInput → HITLState × List (Option InterruptState)
  | [] => (s, [])
  | inp :: rest =>
    let out := checkInterrupts s threadId inp
    let out2 := runTicks out.1 threadId rest
    (out2.1, out.2 ++ out2.2)

/-- Number of publish events that carry a record (some r), as opposed to
clears. -/
def countPublished (evs : List (Option InterruptState)) : Nat :=
  (evs.filter (fun e => e.isSome)).length

/-- HITLDecision from types.ts line 139. -/
inductive HITLDecision where
  | approve : HITLDecision
  | reject : HITLDecision
  | edit : HITLDecision
deriving DecidableEq

/-- One entry of the resume command's decisions array. The code constructs
only the approve and reject entries (objects of type approve and of type
reject, source lines 463 and 478); the edit entry, carrying the edited
arguments under edited_args, is the wire shape documented in
HITL_IMPLEMENTATION.md and is never constructed by resumeRun. -/
inductive DecisionEntry where
  | approveEntry : DecisionEntry
  | rejectEntry : DecisionEntry
  | editEntry : Snapshot → DecisionEntry
deriving DecidableEq

/-- The payload handed to stream.submit as command.resume. -/
structure ResumeRequest where
  decisions : List DecisionEntry
deriving DecidableEq

/-- Source line 457: interruptState.pendingAction?.action_requests || []. -/
def actionRequestsOf (r : InterruptState) : List ActionRequest :=
  match r.pendingAction with
  | some v => v.action_requests.getD []
  | none => []

/-- Source lines 441-451, the synchronous prefix of resumeRun for the
displayed record r: add a present interruptId to the ledger, clear the
displayed record and the marker, all before any network call. -/
def resumeRunPre (s : HITLState) (r : InterruptState) : HITLState :=
  let handled :=
    match r.interruptId with
    | some i => insert i s.handledInterruptIds
    | none => s.handledInterruptIds
  { interruptState := none
    handledInterruptIds := handled
    lastInterruptId := none }

/-- Source lines 489-501, the catch path of resumeRun: only when the
record's interruptId is present, remove it from the ledger, restore the
displayed record, and restore the marker; an id-less record is left
cleared. -/
def resumeRollback (s : HITLState) (r : InterruptState) : HITLState :=
  match r.interruptId with
  | some i =>
    { interruptState := some r
      handledInterruptIds := s.handledInterruptIds.erase i
      lastInterruptId := some i }
  | none => s

/-- The observable outcome of one resumeRun call: the state at the moment
the try block starts (after the synchronous ledger/display mutations and
before any network call), the request handed to stream.submit if a submit
call was made (even one that then failed), and the final state. -/
structure ResumeOutcome where
  preState : HITLState
  submitted : Option ResumeRequest
  final : HITLState
deriving DecidableEq

/-- Source lines 433-504: resumeRun(decision, editedState). Guard: no-op
without a displayed record or a credential context. Then the synchronous
prefix (resumeRunPre), then one submit per uniform decision kind; the
editedState parameter is accepted but never used, and no submit is made
for the edit decision. submitFails models stream.submit throwing, which
lands in the catch path (resumeRollback). -/
def resumeRun (s : HITLState) (hasToken : Bool) (decision : HITLDecision)
    (editedState : Option Snapshot) (submitFails : Bool) : ResumeOutcome :=
  match s.interruptState, hasToken with
  | none, _ => ⟨s, none, s⟩
  | some _, false => ⟨s, none, s⟩
  | some r, true =>
    let s1 := resumeRunPre s r
    let actionRequests := actionRequestsOf r
    match decision with
    | .approve =>
      let req : ResumeRequest :=
        ⟨actionRequests.map (fun _ => DecisionEntry.approveEntry)⟩
      if submitFails then ⟨s1, some req, resumeRollback s1 r⟩
      else ⟨s1, some req, s1⟩
    | .reject =>
      let req : ResumeRequest :=
        ⟨actionRequests.map (fun _ => DecisionEntry.rejectEntry)⟩
      if submitFails then ⟨s1, some req, resumeRollback s1 r⟩
      else ⟨s1, some req, s1⟩
    | .edit => ⟨s1, none, s1⟩

/-- Source lines 141-145: the conversation-change effect. It clears the
ledger, clears the displayed record and resets the marker, independently
of the previous state. -/
def threadChangeReset (_s : HITLState) : HITLState :=
  { interruptState := none
    handledInterruptIds := ∅
    lastInterruptId := none }

/-- Source lines 310-313: when the feature is disabled or no conversation
or credential context is available, the detector publishes a clear and
resets the marker (and schedules no ticks). -/
def disabledReset (s : HITLState) : HITLState × List (Option InterruptState) :=
  ({ s with interruptState := none, lastInterruptId := none }, [none])

/-- The marker-display synchronization invariant: with no displayed record
the marker is null, and with a displayed record the marker equals that
record's interruptId. -/
def markerSync (s : HITLState) : Bool :=
  match s.interruptState with
  | none => s.lastInterruptId == none
  | some r => s.lastInterruptId == r.interruptId

/- Concrete fixtures used by witnesses and counterexamples. All string
literals are bound to names here. -/

def tidA : String := "tA"
def id1 : String := "i1"
def nmAnalyze : String := "analyze_image"
def nmB : String := "toolB"
def nmC : String := "toolC"
def argX : String := "x1"
def argY : String := "y1"
def argZ : String := "z1"
def editedArgs : String := "editedArgs"

def reqA : ActionRequest := { name := nmAnalyze, args := argX }
def reqB : ActionRequest := { name := nmB, args := argY }
def reqC : ActionRequest := { name := nmC, args := argZ }

def valA : InterruptValue := { action_requests := some [reqA], name := none }
def val3 : InterruptValue :=
  { action_requests := some [reqA, reqB, reqC], name := none }

def intr1 : Interrupt :=
  { id := some id1, value := none, action_requests := some [reqA],
    name := none }
def intrNoId : Interrupt :=
  { id := none, value := none, action_requests := some [reqA], name := none }

def rec1 : InterruptState :=
  { runId := unknownStr, threadId := tidA, nodeName := nmAnalyze,
    pendingAction := some valA, state := Snapshot.emptyObj,
    interruptId := some id1 }
def recNoId : InterruptState :=
  { runId := unknownStr, threadId := tidA, nodeName := nmAnalyze,
    pendingAction := some valA, state := Snapshot.emptyObj,
    interruptId := none }
def rec3 : InterruptState :=
  { runId := unknownStr, threadId := tidA, nodeName := nmAnalyze,
    pendingAction := some val3, state := Snapshot.emptyObj,
    interruptId := some id1 }

def s0 : HITLState :=
  { interruptState := none, handledInterruptIds := ∅,
    lastInterruptId := none }
def sDisp1 : HITLState :=
  { interruptState := some rec1, handledInterruptIds := ∅,
    lastInterruptId := some id1 }
def sDisp3 : HITLState :=
  { interruptState := some rec3, handledInterruptIds := ∅,
    lastInterruptId := some id1 }
def sDispNoId : HITLState :=
  { interruptState := some recNoId, handledInterruptIds := ∅,
    lastInterruptId := none }
def sCorner : HITLState :=
  { interruptState := some recNoId, handledInterruptIds := {id1},
    lastInterruptId := none }
def sHandled : HITLState :=
  { interruptState := none, handledInterruptIds := {id1},
    lastInterruptId := none }

def stNoVals : ThreadState :=
  { interrupts := some [intr1], tasks := none, values := none }
def stWithVals : ThreadState :=
  { interrupts := some [intr1], tasks := some [],
    values := some (Snapshot.data argX) }

/- Helper lemmas. -/

theorem optStrEq_none_left (m : Option String) : optStrEq none m = false := by
  cases m <;> rfl

theorem optStrEq_some_iff (i : String) (m : Option String) :
    optStrEq (some i) m = true ↔ m = some i := by
  cases m with
  | none => simp [optStrEq]
  | some b =>
    simp only [optStrEq, beq_iff_eq, Option.some.injEq]
    exact ⟨fun h => h.symm, fun h => h.symm⟩

theorem livePublish_handled_eq (s : HITLState) (tid : String) (c : Bool)
    (intr : Interrupt) (rid : Option String) (vals : Option Snapshot) :
    (livePublish s tid c intr rid vals).1.handledInterruptIds =
      s.handledInterruptIds := by
  unfold livePublish
  split <;> (try rfl)
  split <;> rfl

theorem liveTick_handled_eq (s : HITLState) (tid : String) (c : Bool)
    (intr : Interrupt) (rid : Option String) (vals : Option Snapshot) :
    (liveTick s tid c intr rid vals).1.handledInterruptIds =
      s.handledInterruptIds := by
  unfold liveTick
  split
  case _ i hi =>
    split
    · split <;> rfl
    · exact livePublish_handled_eq ..
  case _ => exact livePublish_handled_eq ..

theorem fallbackPublish_handled_eq (s : HITLState) (tid : String) (c : Bool)
    (intr : Interrupt) (vals : Snapshot) :
    (fallbackPublish s tid c intr vals).1.handledInterruptIds =
      s.handledInterruptIds := by
  unfold fallbackPublish
  split <;> (try rfl)
  split <;> rfl

theorem fallbackProcess_handled_eq (s : HITLState) (tid : String) (c : Bool)
    (intr : Interrupt) (vals : Snapshot) :
    (fallbackProcess s tid c intr vals).1.handledInterruptIds =
      s.handledInterruptIds := by
  unfold fallbackProcess
  split
  case _ i hi =>
    split
    · split <;> rfl
    · exact fallbackPublish_handled_eq ..
  case _ => exact fallbackPublish_handled_eq ..

theorem fallbackTick_handled_eq (s : HITLState) (tid : String) (c : Bool)
    (res : Except Unit ThreadState) :
    (fallbackTick s tid c res).1.handledInterruptIds =
      s.handledInterruptIds := by
  cases res with
  | error e =>
    simp only [fallbackTick]
    split <;> rfl
  | ok st =>
    simp only [fallbackTick]
    split
    · split
      · rfl
      · exact fallbackProcess_handled_eq ..
    · split <;> rfl

theorem checkInterrupts_handled_eq (s : HITLState) (tid : String)
    (inp : TickInput) :
    (checkInterrupts s tid inp).1.handledInterruptIds =
      s.handledInterruptIds := by
  unfold checkInterrupts
  split
  · exact liveTick_handled_eq ..
  · exact fallbackTick_handled_eq ..

theorem runTicks_handled_eq (s : HITLState) (tid : String)
    (inps : List TickInput) :
    (runTicks s tid inps).1.handledInterruptIds = s.handledInterruptIds := by
  induction inps generalizing s with
  | nil => rfl
  | cons inp rest ih =>
    show (runTicks (checkInterrupts s tid inp).1 tid rest).1.handledInterruptIds
        = s.handledInterruptIds
    rw [ih, checkInterrupts_handled_eq]

theorem livePublish_event_id (s : HITLState) (tid : String) (c : Bool)
    (intr : Interrupt) (rid : Option String) (vals : Option Snapshot)
    (r : InterruptState)
    (h : some r ∈ (livePublish s tid c intr rid vals).2) :
    r.interruptId = intr.id := by
  unfold livePublish at h
  split at h
  · simp at h
  · split at h
    · simp at h
    · simp only [List.mem_singleton, Option.some.injEq] at h
      subst h
      rfl

theorem fallbackPublish_event_id (s : HITLState) (tid : String) (c : Bool)
    (intr : Interrupt) (vals : Snapshot) (r : InterruptState)
    (h : some r ∈ (fallbackPublish s tid c intr vals).2) :
    r.interruptId = intr.id := by
  unfold fallbackPublish at h
  split at h
  · simp at h
  · split at h
    · simp at h
    · simp only [List.mem_singleton, Option.some.injEq] at h
      subst h
      rfl

theorem liveTick_no_publish_handled (s : HITLState) (tid : String) (c : Bool)
    (intr : Interrupt) (rid : Option String) (vals : Option Snapshot)
    (i : String) (hi : i ∈ s.handledInterruptIds) (r : InterruptState)
    (h : some r ∈ (liveTick s tid c intr rid vals).2) :
    r.interruptId ≠ some i := by
  unfold liveTick at h
  split at h
  case _ j hj =>
    by_cases hmem : j ∈ s.handledInterruptIds
    · rw [if_pos hmem] at h
      split at h <;> simp at h
    · rw [if_neg hmem] at h
      have := livePublish_event_id s tid c intr rid vals r h
      rw [this, hj]
      intro hc
      exact hmem (by cases hc; exact hi)
  case _ hj =>
    have := livePublish_event_id s tid c intr rid vals r h
    rw [this, hj]
    exact fun hc => Option.noConfusion hc

theorem fallbackProcess_no_publish_handled (s : HITLState) (tid : String)
    (c : Bool) (intr : Interrupt) (vals : Snapshot)
    (i : String) (hi : i ∈ s.handledInterruptIds) (r : InterruptState)
    (h : some r ∈ (fallbackProcess s tid c intr vals).2) :
    r.interruptId ≠ some i := by
  unfold fallbackProcess at h
  split at h
  case _ j hj =>
    by_cases hmem : j ∈ s.handledInterruptIds
    · rw [if_pos hmem] at h
      split at h <;> simp at h
    · rw [if_neg hmem] at h
      have := fallbackPublish_event_id s tid c intr vals r h
      rw [this, hj]
      intro hc
      exact hmem (by cases hc; exact hi)
  case _ hj =>
    have := fallbackPublish_event_id s tid c intr vals r h
    rw [this, hj]
    exact fun hc => Option.noConfusion hc

theorem fallbackTick_no_publish_handled (s : HITLState) (tid : String)
    (c : Bool) (res : Except Unit ThreadState)
    (i : String) (hi : i ∈ s.handledInterruptIds) (r : InterruptState)
    (h : some r ∈ (fallbackTick s tid c res).2) :
    r.interruptId ≠ some i := by
  cases res with
  | error e =>
    simp only [fallbackTick] at h
    split at h <;> simp at h
  | ok st =>
    simp only [fallbackTick] at h
    split at h
    · split at h
      · simp at h
      · exact fallbackProcess_no_publish_handled s tid c _ _ i hi r h
    · split at h <;> simp at h

theorem checkInterrupts_no_publish_handled (s : HITLState) (tid : String)
    (inp : TickInput) (i : String) (hi : i ∈ s.handledInterruptIds)
    (r : InterruptState) (h : some r ∈ (checkInterrupts s tid inp).2) :
    r.interruptId ≠ some i := by
  unfold checkInterrupts at h
  split at h
  · exact liveTick_no_publish_handled _ _ _ _ _ _ i hi r h
  · exact fallbackTick_no_publish_handled _ _ _ _ i hi r h

theorem runTicks_no_publish_handled (s : HITLState) (tid : String)
    (inps : List TickInput) (i : String) (hi : i ∈ s.handledInterruptIds)
    (r : InterruptState) (h : some r ∈ (runTicks s tid inps).2) :
    r.interruptId ≠ some i := by
  induction inps generalizing s with
  | nil => simp [runTicks] at h
  | cons inp rest ih =>
    simp only [runTicks, List.mem_append] at h
    cases h with
    | inl h1 => exact checkInterrupts_no_publish_handled s tid inp i hi r h1
    | inr h2 =>
      have hi2 : i ∈ (checkInterrupts s tid inp).1.handledInterruptIds := by
        rw [checkInterrupts_handled_eq]; exact hi
      exact ih _ hi2 h2

theorem optStrEq_eq_false_of_ne (i : String) (m : Option String)
    (h : m ≠ some i) : optStrEq (some i) m = false := by
  cases hm : optStrEq (some i) m
  · rfl
  · exact absurd ((optStrEq_some_iff i m).mp hm) h

/- Branch-equation lemmas for the tick functions. -/

theorem livePublish_suppressed (s : HITLState) (tid : String) (c : Bool)
    (intr : Interrupt) (rid : Option String) (vals : Option Snapshot)
    (h : optStrEq intr.id s.lastInterruptId = true) :
    livePublish s tid c intr rid vals = (s, []) := by
  unfold livePublish
  rw [h]
  rfl

theorem livePublish_go (s : HITLState) (tid : String)
    (intr : Interrupt) (rid : Option String) (vals : Option Snapshot)
    (h : optStrEq intr.id s.lastInterruptId = false) :
    livePublish s tid false intr rid vals =
      ({ s with interruptState := some (liveRecord tid intr rid vals), lastInterruptId := intr.id },
       [some (liveRecord tid intr rid vals)]) := by
  unfold livePublish
  rw [h]
  rfl

theorem liveTick_fresh (s : HITLState) (tid : String) (c : Bool)
    (intr : Interrupt) (rid : Option String) (vals : Option Snapshot)
    (i : String) (hid : intr.id = some i)
    (hfresh : i ∉ s.handledInterruptIds) :
    liveTick s tid c intr rid vals = livePublish s tid c intr rid vals := by
  unfold liveTick
  rw [hid]
  exact if_neg hfresh

theorem liveTick_noId (s : HITLState) (tid : String) (c : Bool)
    (intr : Interrupt) (rid : Option String) (vals : Option Snapshot)
    (hid : intr.id = none) :
    liveTick s tid c intr rid vals = livePublish s tid c intr rid vals := by
  unfold liveTick
  rw [hid]

theorem liveTick_dedup (s : HITLState) (tid : String) (c : Bool)
    (intr : Interrupt) (rid : Option String) (vals : Option Snapshot)
    (i : String) (hid : intr.id = some i)
    (hmem : i ∈ s.handledInterruptIds) :
    liveTick s tid c intr rid vals =
      if c = false ∧ s.lastInterruptId ≠ none then (clearDisplay s, [none])
      else (s, []) := by
  unfold liveTick
  rw [hid]
  exact if_pos hmem

theorem fallbackPublish_suppressed (s : HITLState) (tid : String) (c : Bool)
    (intr : Interrupt) (vals : Snapshot)
    (h : optStrEq intr.id s.lastInterruptId = true) :
    fallbackPublish s tid c intr vals = (s, []) := by
  unfold fallbackPublish
  rw [h]
  rfl

theorem fallbackPublish_go (s : HITLState) (tid : String)
    (intr : Interrupt) (vals : Snapshot)
    (h : optStrEq intr.id s.lastInterruptId = false) :
    fallbackPublish s tid false intr vals =
      ({ s with interruptState := some (fallbackRecord tid intr vals), lastInterruptId := intr.id },
       [some (fallbackRecord tid intr vals)]) := by
  unfold fallbackPublish
  rw [h]
  rfl

theorem fallbackProcess_fresh (s : HITLState) (tid : String) (c : Bool)
    (intr : Interrupt) (vals : Snapshot)
    (i : String) (hid : intr.id = some i)
    (hfresh : i ∉ s.handledInterruptIds) :
    fallbackProcess s tid c intr vals = fallbackPublish s tid c intr vals := by
  unfold fallbackProcess
  rw [hid]
  exact if_neg hfresh

theorem fallbackProcess_dedup (s : HITLState) (tid : String) (c : Bool)
    (intr : Interrupt) (vals : Snapshot)
    (i : String) (hid : intr.id = some i)
    (hmem : i ∈ s.handledInterruptIds) :
    fallbackProcess s tid c intr vals =
      if c = false ∧ s.lastInterruptId ≠ none then (clearDisplay s, [none])
      else (s, []) := by
  unfold fallbackProcess
  rw [hid]
  exact if_pos hmem

theorem fallbackTick_candidates (s : HITLState) (tid : String)
    (st : ThreadState) (intr : Interrupt) (rest : List Interrupt)
    (v2 : Snapshot) (hall : allInterruptsOf st = intr :: rest)
    (hv : st.values = some v2) :
    fallbackTick s tid false (Except.ok st) =
      fallbackProcess s tid false intr v2 := by
  simp only [fallbackTick, hall, hv]
  rfl

theorem fallbackTick_noCandidates (s : HITLState) (tid : String)
    (st : ThreadState) (h : allInterruptsOf st = [] ∨ st.values = none) :
    fallbackTick s tid false (Except.ok st) =
      if s.lastInterruptId ≠ none then (clearDisplay s, [none])
      else (s, []) := by
  simp only [fallbackTick]
  cases h with
  | inl h1 => rw [h1]; cases st.values <;> simp
  | inr h2 =>
    rw [h2]
    cases hall : allInterruptsOf st <;> simp

/- Equation lemmas for resumeRun's branches. -/

theorem resumeRun_eq_of_displayed (s : HITLState) (r : InterruptState)
    (hdisp : s.interruptState = some r) (es : Option Snapshot) (f : Bool) :
    resumeRun s true HITLDecision.approve es f =
      ⟨resumeRunPre s r,
       some ⟨(actionRequestsOf r).map (fun _ => DecisionEntry.approveEntry)⟩,
       if f then resumeRollback (resumeRunPre s r) r else resumeRunPre s r⟩ ∧
    resumeRun s true HITLDecision.reject es f =
      ⟨resumeRunPre s r,
       some ⟨(actionRequestsOf r).map (fun _ => DecisionEntry.rejectEntry)⟩,
       if f then resumeRollback (resumeRunPre s r) r else resumeRunPre s r⟩ ∧
    resumeRun s true HITLDecision.edit es f =
      ⟨resumeRunPre s r, none, resumeRunPre s r⟩ := by
  refine ⟨?_, ?_, ?_⟩
  · unfold resumeRun; rw [hdisp]; cases f <;> rfl
  · unfold resumeRun; rw [hdisp]; cases f <;> rfl
  · unfold resumeRun; rw [hdisp]

theorem resumeRollback_eq_of_id (s : HITLState) (r : InterruptState)
    (i : String) (hid : r.interruptId = some i) :
    resumeRollback s r =
      ⟨some r, s.handledInterruptIds.erase i, some i⟩ := by
  unfold resumeRollback
  rw [hid]

theorem resumeRunPre_eq_of_id (s : HITLState) (r : InterruptState)
    (i : String) (hid : r.interruptId = some i) :
    resumeRunPre s r =
      ⟨none, insert i s.handledInterruptIds, none⟩ := by
  unfold resumeRunPre
  rw [hid]

theorem resumeRunPre_eq_of_noId (s : HITLState) (r : InterruptState)
    (hid : r.interruptId = none) :
    resumeRunPre s r = ⟨none, s.handledInterruptIds, none⟩ := by
  unfold resumeRunPre
  rw [hid]

theorem list_map_const_replicate {α β : Type} (l : List α) (b : β) :
    l.map (fun _ => b) = List.replicate l.length b := by
  induction l with
  | nil => rfl
  | cons a t ih => simp [List.replicate_succ, ih]

/- Claim theorems. -/

/-- C7: if a detector tick's asynchronous fallback query is still in
flight when the active conversation changes or the detector is torn down
(the effect cleanup raises the cancellation flag, source lines 424-427),
then when the query resolves its result is discarded: for every state and
every query result, including errors, the resolution performs no publish
at all and leaves the displayed record, ledger and marker untouched, so
no record from the superseded conversation is ever published and the
marker is never updated from the stale tick. -/
theorem C7_cancelled_fallback_discarded (s : HITLState) (tid : String)
    (res : Except Unit ThreadState) :
    fallbackTick s tid true res = (s, []) := by
  cases res with
  | error e => simp [fallbackTick]
  | ok st =>
    simp only [fallbackTick]
    split
    · rfl
    · simp

/-- C8: on a conversation change (source lines 141-145, the effect keyed
on threadId, which also fires on the transition to no conversation) the
ledger is emptied, the displayed record is cleared and the marker is reset
to null; the reset state is independent of the previous state, so a
detector tick after the reset behaves identically whatever ledger entries
or displayed state the previous conversation had left, even for colliding
interrupt id values. The reset runs synchronously in the effect body, and
because that effect is declared before the detector effect it takes
effect before the detector's next tick. -/
theorem C8_conversation_reset_isolation (s s2 : HITLState) (tid : String)
    (inp : TickInput) :
    (threadChangeReset s).handledInterruptIds = ∅ ∧
    (threadChangeReset s).interruptState = none ∧
    (threadChangeReset s).lastInterruptId = none ∧
    threadChangeReset s = threadChangeReset s2 ∧
    checkInterrupts (threadChangeReset s) tid inp =
      checkInterrupts (threadChangeReset s2) tid inp :=
  ⟨rfl, rfl, rfl, rfl, rfl⟩

/-- C4 (code bug): resolving with the Edit decision submits no resume
request at all. Here the displayed record rec1 has one pending action
request, yet resumeRun with the edit decision and an edited-arguments
payload hands nothing to stream.submit (there is no edit branch in the
decision dispatch, source lines 459-488, and the editedState parameter is
never read), while still clearing the display and marking the interrupt
handled — the decision is silently dropped. HITL_IMPLEMENTATION.md
documents an edit submission of kind edit carrying edited_args, so the
code contradicts its own documentation. -/
theorem C4_edit_submits_nothing :
    (resumeRun sDisp1 true HITLDecision.edit (some (Snapshot.data editedArgs))
        false).submitted = none ∧
    (resumeRun sDisp1 true HITLDecision.edit (some (Snapshot.data editedArgs))
        false).final.interruptState = none ∧
    id1 ∈ (resumeRun sDisp1 true HITLDecision.edit
        (some (Snapshot.data editedArgs)) false).final.handledInterruptIds := by
  decide

/-- C6: for a displayed record whose pending action carries the ordered
action-request list l, resolving with the uniform Approve (respectively
Reject) decision submits a decisions list that is exactly l.length copies
of the approve (respectively reject) entry, one per action request in the
original order, whether or not the submission then fails. -/
theorem C6_uniform_order_preserving (s : HITLState) (r : InterruptState)
    (v : InterruptValue) (l : List ActionRequest)
    (hdisp : s.interruptState = some r) (hpa : r.pendingAction = some v)
    (hl : v.action_requests = some l) (es : Option Snapshot) (f : Bool) :
    (resumeRun s true HITLDecision.approve es f).submitted =
      some ⟨List.replicate l.length DecisionEntry.approveEntry⟩ ∧
    (resumeRun s true HITLDecision.reject es f).submitted =
      some ⟨List.replicate l.length DecisionEntry.rejectEntry⟩ := by
  have hact : actionRequestsOf r = l := by
    simp [actionRequestsOf, hpa, hl]
  have h := resumeRun_eq_of_displayed s r hdisp es f
  constructor
  · rw [h.1]
    simp [hact, list_map_const_replicate]
  · rw [h.2.1]
    simp [hact, list_map_const_replicate]

/-- C6 witness: the spec's order-preservation scenario — three pending
action requests and decision Approve give exactly three approve entries. -/
theorem C6_witness :
    sDisp3.interruptState = some rec3 ∧
    rec3.pendingAction = some val3 ∧
    val3.action_requests = some [reqA, reqB, reqC] ∧
    (resumeRun sDisp3 true HITLDecision.approve none false).submitted =
      some ⟨[DecisionEntry.approveEntry, DecisionEntry.approveEntry,
             DecisionEntry.approveEntry]⟩ :=
  ⟨by decide, by decide, by decide,
   (C6_uniform_order_preserving sDisp3 rec3 val3 [reqA, reqB, reqC]
      (by decide) (by decide) (by decide) none false).1⟩

/-- C2: while a record is displayed and a credential context is available,
resumeRun performs its ledger/display mutations synchronously before the
resume request is issued: the preState (the value of the three cells at
the top of the try block, after source lines 441-451 and before the
stream.submit call) already has the record's interruptId in the ledger
(when present), no displayed record, and a null marker, for every
decision and regardless of whether the submission later fails. -/
theorem C2_sync_before_submit (s : HITLState) (r : InterruptState)
    (hdisp : s.interruptState = some r) (d : HITLDecision)
    (es : Option Snapshot) (f : Bool) :
    (resumeRun s true d es f).preState = resumeRunPre s r ∧
    (resumeRun s true d es f).preState.interruptState = none ∧
    (resumeRun s true d es f).preState.lastInterruptId = none ∧
    ∀ i, r.interruptId = some i →
      i ∈ (resumeRun s true d es f).preState.handledInterruptIds := by
  have h := resumeRun_eq_of_displayed s r hdisp es f
  have hpre : (resumeRun s true d es f).preState = resumeRunPre s r := by
    cases d
    · rw [h.1]
    · rw [h.2.1]
    · rw [h.2.2]
  refine ⟨hpre, ?_, ?_, ?_⟩
  · rw [hpre]; rfl
  · rw [hpre]; rfl
  · intro i hi
    rw [hpre, resumeRunPre_eq_of_id s r i hi]
    exact Finset.mem_insert_self i s.handledInterruptIds

/-- C2 witness: concrete instance with a displayed record carrying id i1;
after the synchronous prefix the ledger contains i1 and the display and
marker are cleared. -/
theorem C2_witness :
    sDisp1.interruptState = some rec1 ∧
    (resumeRun sDisp1 true HITLDecision.approve none false).preState.interruptState
      = none ∧
    (resumeRun sDisp1 true HITLDecision.approve none false).preState.lastInterruptId
      = none ∧
    id1 ∈ (resumeRun sDisp1 true HITLDecision.approve none
        false).preState.handledInterruptIds :=
  ⟨by decide,
   (C2_sync_before_submit sDisp1 rec1 (by decide) HITLDecision.approve none
      false).2.1,
   (C2_sync_before_submit sDisp1 rec1 (by decide) HITLDecision.approve none
      false).2.2.1,
   (C2_sync_before_submit sDisp1 rec1 (by decide) HITLDecision.approve none
      false).2.2.2 id1 (by decide)⟩

/-- C3 counterexample: the claim quantifies over every displayed record,
but the failure rollback (source lines 493-500) is guarded by the
presence of interruptId. For the displayed id-less record recNoId, the
submission is attempted and fails, yet afterwards no record is displayed:
the interrupt stays cleared and cannot be retried. -/
theorem C3_counterexample :
    sDispNoId.interruptState = some recNoId ∧
    recNoId.interruptId = none ∧
    (resumeRun sDispNoId true HITLDecision.approve none true).submitted
      ≠ none ∧
    (resumeRun sDispNoId true HITLDecision.approve none
        true).final.interruptState = none ∧
    (resumeRun sDispNoId true HITLDecision.approve none
        true).final.lastInterruptId = none := by
  decide

/-- C3 (amended): for every displayed record whose interruptId is present,
if the resume submission inside resolve fails then afterwards the id is no
longer in the ledger, the same record is displayed again, the marker is
restored to its interruptId, and resolve can be invoked again for it (the
retried call reaches the submit again); the embedding of resolve is a
total function, reflecting that the catch swallows the failure and no
exception escapes. A displayed record with an absent interruptId is not
restored: it stays cleared (see the counterexample). -/
theorem C3_rollback_amended (s : HITLState) (r : InterruptState) (i : String)
    (hdisp : s.interruptState = some r) (hid : r.interruptId = some i)
    (d : HITLDecision)
    (hd : d = HITLDecision.approve ∨ d = HITLDecision.reject)
    (es : Option Snapshot) :
    (resumeRun s true d es true).submitted ≠ none ∧
    i ∉ (resumeRun s true d es true).final.handledInterruptIds ∧
    (resumeRun s true d es true).final.interruptState = some r ∧
    (resumeRun s true d es true).final.lastInterruptId = some i ∧
    ∀ es2, (resumeRun (resumeRun s true d es true).final true d es2
      false).submitted ≠ none := by
  have h := resumeRun_eq_of_displayed s r hdisp es true
  have hfin : (resumeRun s true d es true).final =
      resumeRollback (resumeRunPre s r) r ∧
      (resumeRun s true d es true).submitted ≠ none := by
    rcases hd with rfl | rfl
    · rw [h.1]
      exact ⟨rfl, by simp⟩
    · rw [h.2.1]
      exact ⟨rfl, by simp⟩
  have hroll : resumeRollback (resumeRunPre s r) r =
      ⟨some r, (resumeRunPre s r).handledInterruptIds.erase i, some i⟩ :=
    resumeRollback_eq_of_id _ r i hid
  refine ⟨hfin.2, ?_, ?_, ?_, ?_⟩
  · rw [hfin.1, hroll]
    exact Finset.not_mem_erase i _
  · rw [hfin.1, hroll]
  · rw [hfin.1, hroll]
  · intro es2
    have hdisp2 : (resumeRun s true d es true).final.interruptState = some r := by
      rw [hfin.1, hroll]
    have h2 := resumeRun_eq_of_displayed _ r hdisp2 es2 false
    rcases hd with rfl | rfl
    · rw [h2.1]
      simp
    · rw [h2.2.1]
      simp

/-- C3 witness: displayed record rec1 with id i1 and a failing reject
submission; afterwards i1 is out of the ledger, rec1 is displayed again
with the marker restored, and a retry submits again. -/
theorem C3_witness :
    sDisp1.interruptState = some rec1 ∧
    rec1.interruptId = some id1 ∧
    id1 ∉ (resumeRun sDisp1 true HITLDecision.reject none
        true).final.handledInterruptIds ∧
    (resumeRun sDisp1 true HITLDecision.reject none
        true).final.interruptState = some rec1 ∧
    (resumeRun sDisp1 true HITLDecision.reject none
        true).final.lastInterruptId = some id1 ∧
    (resumeRun (resumeRun sDisp1 true HITLDecision.reject none true).final
        true HITLDecision.reject none false).submitted ≠ none :=
  ⟨by decide, by decide,
   (C3_rollback_amended sDisp1 rec1 id1 (by decide) (by decide)
      HITLDecision.reject (Or.inr rfl) none).2.1,
   (C3_rollback_amended sDisp1 rec1 id1 (by decide) (by decide)
      HITLDecision.reject (Or.inr rfl) none).2.2.1,
   (C3_rollback_amended sDisp1 rec1 id1 (by decide) (by decide)
      HITLDecision.reject (Or.inr rfl) none).2.2.2.1,
   (C3_rollback_amended sDisp1 rec1 id1 (by decide) (by decide)
      HITLDecision.reject (Or.inr rfl) none).2.2.2.2 none⟩

/-- C5 counterexample: two consecutive live ticks reporting the very same
id-less interrupt (same pending action by value) publish twice, not once.
There is no value-equality suppression in the code: the change-suppression
comparison is JS strict equality between the normalized id (undefined)
and the marker (null), which is false, so the record is republished every
tick. -/
theorem C5_counterexample :
    intrNoId.id = none ∧
    countPublished ((liveTick s0 tidA false intrNoId none none).2 ++
      (liveTick (liveTick s0 tidA false intrNoId none none).1 tidA false
        intrNoId none none).2) = 2 := by
  decide

/-- C5 (amended): when the interruptId is present, suppression is by
identifier equality with the last-seen marker: two consecutive ticks
reporting the same interrupt produce exactly one publish event on the live
channel and on the fallback channel, the second tick being a no-op. When
the interruptId is absent there is no suppression at all — each tick
republishes the record, so two consecutive ticks produce two publish
events. Id-less records are never added to the ledger, and no detector
tick ever modifies the ledger. -/
theorem C5_suppression_amended (s : HITLState) (tid : String) (i : String)
    (intr : Interrupt) (hid : intr.id = some i)
    (hfresh : i ∉ s.handledInterruptIds)
    (hmark : s.lastInterruptId ≠ some i)
    (rid : Option String) (vals : Option Snapshot)
    (intr2 : Interrupt) (hid2 : intr2.id = none)
    (st : ThreadState) (rest : List Interrupt) (v2 : Snapshot)
    (hall : allInterruptsOf st = intr :: rest) (hv : st.values = some v2) :
    countPublished ((liveTick s tid false intr rid vals).2 ++
      (liveTick (liveTick s tid false intr rid vals).1 tid false intr rid
        vals).2) = 1 ∧
    (liveTick (liveTick s tid false intr rid vals).1 tid false intr rid
      vals).2 = [] ∧
    countPublished ((fallbackTick s tid false (Except.ok st)).2 ++
      (fallbackTick (fallbackTick s tid false (Except.ok st)).1 tid false
        (Except.ok st)).2) = 1 ∧
    countPublished ((liveTick s tid false intr2 rid vals).2 ++
      (liveTick (liveTick s tid false intr2 rid vals).1 tid false intr2 rid
        vals).2) = 2 ∧
    (∀ r2 : InterruptState, r2.interruptId = none →
      (resumeRunPre s r2).handledInterruptIds = s.handledInterruptIds) ∧
    (∀ inp : TickInput,
      (checkInterrupts s tid inp).1.handledInterruptIds =
        s.handledInterruptIds) := by
  have hne : optStrEq intr.id s.lastInterruptId = false := by
    rw [hid]
    exact optStrEq_eq_false_of_ne i _ hmark
  have e1 : liveTick s tid false intr rid vals =
      ({ s with interruptState := some (liveRecord tid intr rid vals), lastInterruptId := intr.id },
       [some (liveRecord tid intr rid vals)]) := by
    rw [liveTick_fresh s tid false intr rid vals i hid hfresh,
      livePublish_go s tid intr rid vals hne]
  have hsup : optStrEq intr.id
      ({ s with interruptState := some (liveRecord tid intr rid vals), lastInterruptId := intr.id }
        : HITLState).lastInterruptId = true := by
    rw [hid]
    exact (optStrEq_some_iff i (some i)).mpr rfl
  have e2 : liveTick
      { s with interruptState := some (liveRecord tid intr rid vals), lastInterruptId := intr.id }
      tid false intr rid vals =
      ({ s with interruptState := some (liveRecord tid intr rid vals), lastInterruptId := intr.id },
       []) := by
    rw [liveTick_fresh
        { s with interruptState := some (liveRecord tid intr rid vals), lastInterruptId := intr.id }
        tid false intr rid vals i hid hfresh,
      livePublish_suppressed
        { s with interruptState := some (liveRecord tid intr rid vals), lastInterruptId := intr.id }
        tid false intr rid vals hsup]
  have f1 : fallbackTick s tid false (Except.ok st) =
      ({ s with interruptState := some (fallbackRecord tid intr v2), lastInterruptId := intr.id },
       [some (fallbackRecord tid intr v2)]) := by
    rw [fallbackTick_candidates s tid st intr rest v2 hall hv,
      fallbackProcess_fresh s tid false intr v2 i hid hfresh,
      fallbackPublish_go s tid intr v2 hne]
  have hsupF : optStrEq intr.id
      ({ s with interruptState := some (fallbackRecord tid intr v2), lastInterruptId := intr.id }
        : HITLState).lastInterruptId = true := by
    rw [hid]
    exact (optStrEq_some_iff i (some i)).mpr rfl
  have f2 : fallbackTick
      { s with interruptState := some (fallbackRecord tid intr v2), lastInterruptId := intr.id }
      tid false (Except.ok st) =
      ({ s with interruptState := some (fallbackRecord tid intr v2), lastInterruptId := intr.id },
       []) := by
    rw [fallbackTick_candidates
        { s with interruptState := some (fallbackRecord tid intr v2), lastInterruptId := intr.id }
        tid st intr rest v2 hall hv,
      fallbackProcess_fresh
        { s with interruptState := some (fallbackRecord tid intr v2), lastInterruptId := intr.id }
        tid false intr v2 i hid hfresh,
      fallbackPublish_suppressed
        { s with interruptState := some (fallbackRecord tid intr v2), lastInterruptId := intr.id }
        tid false intr v2 hsupF]
  have hne2a : optStrEq intr2.id s.lastInterruptId = false := by
    rw [hid2]
    exact optStrEq_none_left _
  have g1 : liveTick s tid false intr2 rid vals =
      ({ s with interruptState := some (liveRecord tid intr2 rid vals), lastInterruptId := intr2.id },
       [some (liveRecord tid intr2 rid vals)]) := by
    rw [liveTick_noId s tid false intr2 rid vals hid2,
      livePublish_go s tid intr2 rid vals hne2a]
  have hne2b : optStrEq intr2.id
      ({ s with interruptState := some (liveRecord tid intr2 rid vals), lastInterruptId := intr2.id }
        : HITLState).lastInterruptId = false := by
    rw [hid2]
    exact optStrEq_none_left _
  have g2 : liveTick
      { s with interruptState := some (liveRecord tid intr2 rid vals), lastInterruptId := intr2.id }
      tid false intr2 rid vals =
      ({ s with
          interruptState := some (liveRecord tid intr2 rid vals),
          lastInterruptId := intr2.id },
       [some (liveRecord tid intr2 rid vals)]) := by
    rw [liveTick_noId
        { s with interruptState := some (liveRecord tid intr2 rid vals), lastInterruptId := intr2.id }
        tid false intr2 rid vals hid2,
      livePublish_go
        { s with interruptState := some (liveRecord tid intr2 rid vals), lastInterruptId := intr2.id }
        tid intr2 rid vals hne2b]
  refine ⟨?_, ?_, ?_, ?_, ?_, ?_⟩
  · rw [e1]
    simp only []
    rw [e2]
    simp [countPublished]
  · rw [e1]
    simp only []
    rw [e2]
  · rw [f1]
    simp only []
    rw [f2]
    simp [countPublished]
  · rw [g1]
    simp only []
    rw [g2]
    simp [countPublished]
  · intro r2 h2
    rw [resumeRunPre_eq_of_noId s r2 h2]
  · intro inp
    exact checkInterrupts_handled_eq s tid inp

/-- C5 witness: concrete two-tick runs — exactly one publish for the
id-carrying interrupt i1 on either channel, two publishes for the id-less
interrupt, and no ledger insertion for an id-less record. -/
theorem C5_witness :
    intr1.id = some id1 ∧
    id1 ∉ s0.handledInterruptIds ∧
    s0.lastInterruptId ≠ some id1 ∧
    countPublished ((liveTick s0 tidA false intr1 none none).2 ++
      (liveTick (liveTick s0 tidA false intr1 none none).1 tidA false intr1
        none none).2) = 1 ∧
    countPublished ((fallbackTick s0 tidA false (Except.ok stWithVals)).2 ++
      (fallbackTick (fallbackTick s0 tidA false (Except.ok stWithVals)).1
        tidA false (Except.ok stWithVals)).2) = 1 ∧
    countPublished ((liveTick s0 tidA false intrNoId none none).2 ++
      (liveTick (liveTick s0 tidA false intrNoId none none).1 tidA false
        intrNoId none none).2) = 2 ∧
    (resumeRunPre s0 recNoId).handledInterruptIds = s0.handledInterruptIds :=
  ⟨by decide, by decide, by decide,
   (C5_suppression_amended s0 tidA id1 intr1 (by decide) (by decide)
      (by decide) none none intrNoId (by decide) stWithVals []
      (Snapshot.data argX) (by decide) (by decide)).1,
   (C5_suppression_amended s0 tidA id1 intr1 (by decide) (by decide)
      (by decide) none none intrNoId (by decide) stWithVals []
      (Snapshot.data argX) (by decide) (by decide)).2.2.1,
   (C5_suppression_amended s0 tidA id1 intr1 (by decide) (by decide)
      (by decide) none none intrNoId (by decide) stWithVals []
      (Snapshot.data argX) (by decide) (by decide)).2.2.2.1,
   (C5_suppression_amended s0 tidA id1 intr1 (by decide) (by decide)
      (by decide) none none intrNoId (by decide) stWithVals []
      (Snapshot.data argX) (by decide) (by decide)).2.2.2.2.1 recNoId
     (by decide)⟩

/-- C10 counterexample: the fallback query returns a non-empty interrupt
list but no values snapshot, a record (the id-less recNoId, with the
marker null as the sync invariant requires for id-less records) is
currently displayed — and the tick does not clear it: the displayed
record survives, contradicting the claim's "clears any previously
displayed record". -/
theorem C10_counterexample :
    allInterruptsOf stNoVals ≠ [] ∧
    stNoVals.values = none ∧
    sDispNoId.interruptState = some recNoId ∧
    (fallbackTick sDispNoId tidA false (Except.ok stNoVals)).1.interruptState
      = some recNoId := by
  decide

/-- C10 (amended): on a fallback tick, an interrupt is published only when
the queried state's values snapshot is present; when the fallback returns
a non-empty interrupt list but no values snapshot, the tick takes the
no-interrupt path — it publishes nothing and clears the previously
displayed record exactly when the last-seen marker is non-null (under the
marker-display sync invariant: when the displayed record has a present
interruptId); a displayed id-less record is left in place. -/
theorem C10_values_gate_amended (s : HITLState) (tid : String)
    (st : ThreadState) (hv : st.values = none) :
    (∀ st2 : ThreadState, ∀ r : InterruptState, ∀ c2 : Bool,
      some r ∈ (fallbackTick s tid c2 (Except.ok st2)).2 →
        st2.values.isSome = true) ∧
    fallbackTick s tid false (Except.ok st) =
      (if s.lastInterruptId ≠ none then (clearDisplay s, [none])
       else (s, [])) := by
  constructor
  · intro st2 r c2 hmem
    cases hval : st2.values with
    | some v => rfl
    | none =>
      exfalso
      rcases hall : allInterruptsOf st2 with _ | ⟨a, l⟩ <;>
        simp only [fallbackTick, hall, hval] at hmem <;>
        (split at hmem <;> simp at hmem)
  · exact fallbackTick_noCandidates s tid st (Or.inr hv)

/-- C10 witness: with the marker non-null the no-values tick does clear
the display, and a fallback publish only ever happens from a thread state
whose values snapshot is present. -/
theorem C10_witness :
    stNoVals.values = none ∧
    fallbackTick sDisp1 tidA false (Except.ok stNoVals) =
      (clearDisplay sDisp1, [none]) ∧
    stWithVals.values.isSome = true :=
  ⟨by decide,
   by
     have h := (C10_values_gate_amended sDisp1 tidA stNoVals (by decide)).2
     rw [if_pos (show sDisp1.lastInterruptId ≠ none by decide)] at h
     exact h,
   (C10_values_gate_amended s0 tidA stNoVals (by decide)).1 stWithVals
     (fallbackRecord tidA intr1 (Snapshot.data argX)) false (by decide)⟩

/-- C1 counterexample: a tick whose normalized interrupt id i1 is present
and already in the handled ledger does not clear the currently displayed
record when the last-seen marker is null (the clear at source lines
330-333 is guarded by the marker being non-null): the displayed id-less
record recNoId stays displayed, contradicting the claim's "reports no
active interrupt (clearing any currently displayed record)". -/
theorem C1_counterexample :
    intr1.id = some id1 ∧
    id1 ∈ sCorner.handledInterruptIds ∧
    sCorner.interruptState = some recNoId ∧
    (liveTick sCorner tidA false intr1 none none).1.interruptState
      = some recNoId := by
  decide

/-- C1 (amended): on every detector tick whose normalized interrupt id is
present and in the handled ledger, the detector never publishes any
record and leaves the ledger unchanged, on both the live channel and the
fallback channel; it clears the displayed record and the marker exactly
when the marker is non-null (a displayed record with an absent
interruptId and a null marker is left in place). Moreover, once an id i is
in the ledger — in particular after a successful resolve put it there —
every later sequence of ticks keeps i in the ledger and never publishes
any record with interruptId i, for the lifetime of the conversation. -/
theorem C1_dedup_amended (s : HITLState) (tid : String) (i : String)
    (hmem : i ∈ s.handledInterruptIds)
    (intr : Interrupt) (hid : intr.id = some i)
    (rid : Option String) (vals : Option Snapshot)
    (st : ThreadState) (rest : List Interrupt) (v2 : Snapshot)
    (hall : allInterruptsOf st = intr :: rest) (hv : st.values = some v2) :
    liveTick s tid false intr rid vals =
      (if s.lastInterruptId ≠ none then (clearDisplay s, [none])
       else (s, [])) ∧
    fallbackTick s tid false (Except.ok st) =
      (if s.lastInterruptId ≠ none then (clearDisplay s, [none])
       else (s, [])) ∧
    (∀ inps : List TickInput,
      i ∈ (runTicks s tid inps).1.handledInterruptIds ∧
      ∀ r : InterruptState, some r ∈ (runTicks s tid inps).2 →
        r.interruptId ≠ some i) := by
  refine ⟨?_, ?_, ?_⟩
  · rw [liveTick_dedup s tid false intr rid vals i hid hmem]
    simp
  · rw [fallbackTick_candidates s tid st intr rest v2 hall hv,
      fallbackProcess_dedup s tid false intr v2 i hid hmem]
    simp
  · intro inps
    refine ⟨?_, ?_⟩
    · rw [runTicks_handled_eq]
      exact hmem
    · intro r hr
      exact runTicks_no_publish_handled s tid inps i hmem r hr

/-- C1 witness: from a state whose ledger holds i1 (as after a successful
resolve of record i1) and whose display and marker are clear, a live tick
and a fallback tick both reporting i1 republish nothing and leave the
state unchanged, and i1 stays in the ledger across an empty tick
sequence. -/
theorem C1_witness :
    id1 ∈ sHandled.handledInterruptIds ∧
    intr1.id = some id1 ∧
    liveTick sHandled tidA false intr1 none none = (sHandled, []) ∧
    fallbackTick sHandled tidA false (Except.ok stWithVals) =
      (sHandled, []) ∧
    id1 ∈ (runTicks sHandled tidA []).1.handledInterruptIds :=
  ⟨by decide, by decide,
   by
     have h := (C1_dedup_amended sHandled tidA id1 (by decide) intr1
        (by decide) none none stWithVals [] (Snapshot.data argX) (by decide)
        (by decide)).1
     rw [if_neg (show ¬sHandled.lastInterruptId ≠ none by decide)] at h
     exact h,
   by
     have h := (C1_dedup_amended sHandled tidA id1 (by decide) intr1
        (by decide) none none stWithVals [] (Snapshot.data argX) (by decide)
        (by decide)).2.1
     rw [if_neg (show ¬sHandled.lastInterruptId ≠ none by decide)] at h
     exact h,
   ((C1_dedup_amended sHandled tidA id1 (by decide) intr1 (by decide) none
      none stWithVals [] (Snapshot.data argX) (by decide) (by decide)).2.2
     []).1⟩

/- Marker-display synchronization lemmas for C9. -/

theorem markerSync_clearDisplay (s : HITLState) :
    markerSync (clearDisplay s) = true := rfl

theorem markerSync_livePublish (s : HITLState) (tid : String) (c : Bool)
    (intr : Interrupt) (rid : Option String) (vals : Option Snapshot)
    (h : markerSync s = true) :
    markerSync (livePublish s tid c intr rid vals).1 = true := by
  unfold livePublish
  split
  · exact h
  · split
    · exact h
    · simp [markerSync, liveRecord]

theorem markerSync_fallbackPublish (s : HITLState) (tid : String) (c : Bool)
    (intr : Interrupt) (vals : Snapshot) (h : markerSync s = true) :
    markerSync (fallbackPublish s tid c intr vals).1 = true := by
  unfold fallbackPublish
  split
  · exact h
  · split
    · exact h
    · simp [markerSync, fallbackRecord]

theorem markerSync_liveTick (s : HITLState) (tid : String) (c : Bool)
    (intr : Interrupt) (rid : Option String) (vals : Option Snapshot)
    (h : markerSync s = true) :
    markerSync (liveTick s tid c intr rid vals).1 = true := by
  unfold liveTick
  split
  · split
    · split
      · exact markerSync_clearDisplay s
      · exact h
    · exact markerSync_livePublish s tid c intr rid vals h
  · exact markerSync_livePublish s tid c intr rid vals h

theorem markerSync_fallbackProcess (s : HITLState) (tid : String) (c : Bool)
    (intr : Interrupt) (vals : Snapshot) (h : markerSync s = true) :
    markerSync (fallbackProcess s tid c intr vals).1 = true := by
  unfold fallbackProcess
  split
  · split
    · split
      · exact markerSync_clearDisplay s
      · exact h
    · exact markerSync_fallbackPublish s tid c intr vals h
  · exact markerSync_fallbackPublish s tid c intr vals h

theorem markerSync_fallbackTick (s : HITLState) (tid : String) (c : Bool)
    (res : Except Unit ThreadState) (h : markerSync s = true) :
    markerSync (fallbackTick s tid c res).1 = true := by
  cases res with
  | error e =>
    simp only [fallbackTick]
    split
    · exact markerSync_clearDisplay s
    · exact h
  | ok st =>
    simp only [fallbackTick]
    split
    · split
      · exact h
      · exact markerSync_fallbackProcess s tid c _ _ h
    · split
      · exact markerSync_clearDisplay s
      · exact h

theorem markerSync_checkInterrupts (s : HITLState) (tid : String)
    (inp : TickInput) (h : markerSync s = true) :
    markerSync (checkInterrupts s tid inp).1 = true := by
  unfold checkInterrupts
  split
  · exact markerSync_liveTick s tid _ _ _ _ h
  · exact markerSync_fallbackTick s tid _ _ h

theorem resumeRun_noop_nodisp (s : HITLState)
    (hdisp : s.interruptState = none) (tok : Bool) (d : HITLDecision)
    (es : Option Snapshot) (f : Bool) :
    resumeRun s tok d es f = ⟨s, none, s⟩ := by
  unfold resumeRun
  rw [hdisp]

theorem resumeRun_noop_notoken (s : HITLState) (r : InterruptState)
    (hdisp : s.interruptState = some r) (d : HITLDecision)
    (es : Option Snapshot) (f : Bool) :
    resumeRun s false d es f = ⟨s, none, s⟩ := by
  unfold resumeRun
  rw [hdisp]

theorem resumeRollback_noId (s : HITLState) (r : InterruptState)
    (hid : r.interruptId = none) : resumeRollback s r = s := by
  unfold resumeRollback
  rw [hid]

theorem markerSync_resumeRunPre (s : HITLState) (r : InterruptState) :
    markerSync (resumeRunPre s r) = true := by
  cases hidr : r.interruptId with
  | some i => rw [resumeRunPre_eq_of_id s r i hidr]; rfl
  | none => rw [resumeRunPre_eq_of_noId s r hidr]; rfl

theorem markerSync_resumeRun (s : HITLState) (tok : Bool) (d : HITLDecision)
    (es : Option Snapshot) (f : Bool) (h : markerSync s = true) :
    markerSync (resumeRun s tok d es f).final = true := by
  cases hdisp : s.interruptState with
  | none =>
    rw [resumeRun_noop_nodisp s hdisp tok d es f]
    exact h
  | some r =>
    cases tok with
    | false =>
      rw [resumeRun_noop_notoken s r hdisp d es f]
      exact h
    | true =>
      have he := resumeRun_eq_of_displayed s r hdisp es f
      have hroll : markerSync (resumeRollback (resumeRunPre s r) r) = true := by
        cases hidr : r.interruptId with
        | some i =>
          rw [resumeRollback_eq_of_id _ r i hidr]
          simp [markerSync, hidr]
        | none =>
          rw [resumeRollback_noId _ r hidr]
          exact markerSync_resumeRunPre s r
      have hfin : (resumeRun s true d es f).final = resumeRunPre s r ∨
          (resumeRun s true d es f).final =
            resumeRollback (resumeRunPre s r) r := by
        cases d
        · rw [he.1]
          cases f
          · exact Or.inl rfl
          · exact Or.inr rfl
        · rw [he.2.1]
          cases f
          · exact Or.inl rfl
          · exact Or.inr rfl
        · rw [he.2.2]
          exact Or.inl rfl
      rcases hfin with hf | hf <;> rw [hf]
      · exact markerSync_resumeRunPre s r
      · exact hroll

/-- C9: the marker-display synchronization invariant — no displayed record
implies a null marker, and a displayed record implies the marker equals
its interruptId (null when the record has none) — is preserved at the
boundary of every operation of the subsystem: any detector tick on either
channel (including cancelled and failing ones), any resolve call
(including failure rollback), the conversation-change reset, and the
feature-disable reset. -/
theorem C9_marker_display_sync (s : HITLState) (h : markerSync s = true)
    (tid : String) (inp : TickInput) (tok : Bool) (d : HITLDecision)
    (es : Option Snapshot) (f : Bool) :
    markerSync (checkInterrupts s tid inp).1 = true ∧
    markerSync (resumeRun s tok d es f).final = true ∧
    markerSync (threadChangeReset s) = true ∧
    markerSync (disabledReset s).1 = true :=
  ⟨markerSync_checkInterrupts s tid inp h,
   markerSync_resumeRun s tok d es f h,
   rfl, rfl⟩

/-- C9 witness: a concrete in-sync state (record rec1 displayed, marker
i1) stays in sync across a live tick, a failing resolve, the
conversation-change reset and the disable reset. -/
theorem C9_witness :
    markerSync sDisp1 = true ∧
    markerSync (checkInterrupts sDisp1 tidA
      ⟨some intr1, none, none, false, false, Except.error ()⟩).1 = true ∧
    markerSync (resumeRun sDisp1 true HITLDecision.approve none
      true).final = true ∧
    markerSync (threadChangeReset sDisp1) = true ∧
    markerSync (disabledReset sDisp1).1 = true :=
  ⟨by decide,
   (C9_marker_display_sync sDisp1 (by decide) tidA
      ⟨some intr1, none, none, false, false, Except.error ()⟩ true
      HITLDecision.approve none true).1,
   (C9_marker_display_sync sDisp1 (by decide) tidA
      ⟨some intr1, none, none, false, false, Except.error ()⟩ true
      HITLDecision.approve none true).2.1,
   (C9_marker_display_sync sDisp1 (by decide) tidA
      ⟨some intr1, none, none, false, false, Except.error ()⟩ true
      HITLDecision.approve none true).2.2.1,
   (C9_marker_display_sync sDisp1 (by decide) tidA
      ⟨some intr1, none, none, false, false, Except.error ()⟩ true
      HITLDecision.approve none true).2.2.2⟩
